import Mathlib

/-!
# Verification of the SGTU event presence-toggle and token protocol

Shallow embedding of the scan orchestrator (`scanStudentQR` in
`src/server/src/controllers/volunteer.controller.js`), the student stall
operations (`scanStall`, `submitFeedback` in
`src/server/src/controllers/student.controller.js`), the stall lookup
(`findByQRToken` in `src/server/src/models/Stall.model.js`) and the token
codecs.  The `QRCodeService` (`services/qrCode.js`) and the `Student` /
`CheckInOut` models are not part of the available sources; the definitions
below that stand in for them are modelled from the specification and are
marked as such in their doc comments.

Timestamps are epoch milliseconds (`Nat`); durations are `Int` minutes
(JavaScript `Math.floor` on a possibly negative difference is `Int.fdiv`).
-/

namespace SGTU

/-! ## Rotating token codec (modelled from the spec) -/

/-- Modelled from the spec: `QRCodeService.ROTATION_INTERVAL_SECONDS`
(`services/qrCode.js`, not in the available sources).  "A time window is a
fixed duration (e.g., 30 seconds)". -/
def ROTATION_INTERVAL_SECONDS : Nat := 30

/-- Modelled from the spec: `QRCodeService.GRACE_PERIOD_WINDOWS`
(`services/qrCode.js`, not in the available sources).  "a small number of
adjacent windows both before and after (the grace period, e.g., ±2
windows)". -/
def GRACE_PERIOD_WINDOWS : Nat := 2

/-- Modelled from the spec: `time_window_index = floor(now / window_duration)`.
`nowMs` is epoch milliseconds, the window duration is 30 seconds. -/
def windowIndex (nowMs : Nat) : Nat :=
  nowMs / (ROTATION_INTERVAL_SECONDS * 1000)

/-- Modelled from the spec: the signature of a rotating token "binds the
attendee id and window index using a per-attendee (or system-wide) secret".
The spec fixes no algorithm; any keyed function injective in the window
index for a fixed secret and attendee id represents it. -/
def rotatingSignature (secret : Nat) (reg : String) (idx : Nat) : Nat :=
  secret + reg.length * 7919 + idx * 104729 + 1

/-- A well-formed rotating token: `(attendee_external_id, time_window_index,
signature)` (spec §3, "Rotating Token"). -/
structure RotatingToken where
  registration_no : String
  window_index : Nat
  signature : Nat
deriving DecidableEq

/-- A legacy static student token (spec §4.4 step 1: "optionally fall back
to a legacy static verification path for the same identity class"). -/
structure StudentStaticToken where
  registration_no : String
  signature : Nat
deriving DecidableEq

/-- A presented student token as received by the scan endpoint: either a
string that does not parse, a rotating token, or a legacy static token. -/
inductive PresentedToken where
  | malformed (raw : String)
  | rotating (t : RotatingToken)
  | staticStudent (t : StudentStaticToken)
deriving DecidableEq

/-- Token verification failure kinds (spec §4.1: "malformed encoding →
`InvalidFormat`; signature fails for every candidate window →
`InvalidOrExpired`"). -/
inductive VerifyError where
  | InvalidFormat
  | InvalidOrExpired
deriving DecidableEq

/-- The candidate window indices a verifier accepts for current window `w`:
`w` itself and `GRACE_PERIOD_WINDOWS` adjacent windows on each side
(natural subtraction truncates below zero). -/
def candidateWindows (w : Nat) : List Nat :=
  (List.range (2 * GRACE_PERIOD_WINDOWS + 1)).map
    (fun k => w + k - GRACE_PERIOD_WINDOWS)

/-- Modelled from the spec: `QRCodeService.generateRotatingStudentToken`
(`services/qrCode.js`, not in the available sources).  "computes the
current time window index, derives a signature over
`(attendee_external_id, window_index)` using a secret ... and returns a
compact encoding". -/
def generateRotatingStudentToken (secret : Nat) (reg : String) (nowMs : Nat) :
    RotatingToken :=
  { registration_no := reg
    window_index := windowIndex nowMs
    signature := rotatingSignature secret reg (windowIndex nowMs) }

/-- Modelled from the spec: the rotating half of
`QRCodeService.verifyRotatingStudentToken` (`services/qrCode.js`, not in
the available sources).  "recomputes the window index for `now` and checks
the signature against that index and a small number of adjacent windows
both before and after".  A legacy static token is not a rotating token
(the controller then falls back to static verification). -/
def verifyRotatingStudentToken (secret : Nat) (tok : PresentedToken)
    (nowMs : Nat) : Except VerifyError String :=
  match tok with
  | .malformed _ => .error .InvalidFormat
  | .staticStudent _ => .error .InvalidOrExpired
  | .rotating t =>
      if (candidateWindows (windowIndex nowMs)).any
          (fun c => t.signature == rotatingSignature secret t.registration_no c)
      then .ok t.registration_no
      else .error .InvalidOrExpired

/-- Modelled from the spec: `QRCodeService.verifyStudentQRToken`
(`services/qrCode.js`, not in the available sources) — the legacy static
student verification path: signature only, no time component. -/
def staticStudentSignature (secret : Nat) (reg : String) : Nat :=
  secret * 3 + reg.length * 65537 + 2

/-- Modelled from the spec: the combined verification the controller
performs (volunteer.controller.js lines 205–217): rotating first, then on
an `isStatic` miss fall back to the legacy static path; "both paths must
resolve to the same attendee-lookup step". -/
def verifyPresentedToken (secret : Nat) (tok : PresentedToken) (nowMs : Nat) :
    Except VerifyError String :=
  match tok with
  | .staticStudent t =>
      if t.signature == staticStudentSignature secret t.registration_no
      then .ok t.registration_no
      else .error .InvalidOrExpired
  | _ => verifyRotatingStudentToken secret tok nowMs

/-! ## Static stall token codec (modelled from the spec) -/

/-- A static stall token: "a non-expiring signed identifier bound to a
fixed physical asset" (spec §3). -/
structure StaticToken where
  asset_id : Nat
  signature : Nat
deriving DecidableEq

/-- Modelled from the spec: the signature of the static token codec
(`services/qrCode.js`, not in the available sources); signature over the
asset id with a secret, no time component. -/
def staticSignature (secret : Nat) (assetId : Nat) : Nat :=
  secret * 5 + assetId * 131071 + 3

/-- Modelled from the spec: `QRCodeService.generateStallQRToken` —
"`Issue(assetId) -> token` produces a signed, non-expiring identifier at
asset creation time". -/
def generateStallQRToken (secret : Nat) (assetId : Nat) : StaticToken :=
  { asset_id := assetId, signature := staticSignature secret assetId }

/-- A presented stall token: malformed string or a structured token. -/
inductive StallTokenInput where
  | malformed (raw : String)
  | tok (t : StaticToken)
deriving DecidableEq

/-- Modelled from the spec: `QRCodeService.verifyStallQRToken` —
"`Verify(token) -> {valid, assetId} | invalid` checks the signature only;
no time component". -/
def verifyStallQRToken (secret : Nat) (tok : StallTokenInput) : Option Nat :=
  match tok with
  | .malformed _ => none
  | .tok t =>
      if t.signature == staticSignature secret t.asset_id
      then some t.asset_id
      else none

/-- The stall verifier evaluated at a verification time: the code's
verifier takes no time parameter, so the wrapper ignores it; stating the
claims over this wrapper makes time-independence explicit. -/
def verifyStallQRTokenAt (secret : Nat) (tok : StallTokenInput) (_nowMs : Nat) :
    Option Nat :=
  verifyStallQRToken secret tok

/-! ## Data model -/

/-- A student row, with the presence fields read and written by
`scanStudentQR` (the `Student` model itself is not in the available
sources; the fields are those the controller uses: `is_inside_event`,
`last_checkin_at`, `last_checkout_at`, `total_scan_count`, and the
accumulated active duration updated by `updateActiveDuration`). -/
structure Student where
  id : Nat
  full_name : String
  registration_no : String
  school_name : String
  is_inside_event : Bool
  last_checkin_at : Option Nat
  last_checkout_at : Option Nat
  total_scan_count : Nat
  total_active_duration : Int
deriving DecidableEq

/-- A volunteer row (fields from `part_003`, the Volunteer model). -/
structure Volunteer where
  id : Nat
  email : String
  full_name : String
  is_active : Bool
  total_scans_performed : Nat
deriving DecidableEq

/-- `scan_type` of a check-in/out ledger record
(`'CHECKIN' | 'CHECKOUT'` in the controller). -/
inductive ScanType where
  | CHECKIN
  | CHECKOUT
deriving DecidableEq

/-- A scan-ledger (`check_in_outs`) record as created by the controller:
`student_id`, `volunteer_id`, `scan_type`, `scan_number`,
`duration_minutes` (volunteer.controller.js lines 266–291). -/
structure CheckInOutRecord where
  student_id : Nat
  volunteer_id : Nat
  scan_type : ScanType
  scan_number : Nat
  duration_minutes : Option Int
deriving DecidableEq

/-- The database state the scan endpoint touches. -/
structure ScanState where
  students : List Student
  volunteers : List Volunteer
  checkInOuts : List CheckInOutRecord
deriving DecidableEq

/-- `Student.findByRegistrationNo` (model not in the available sources;
a lookup by exact registration number, as the `SELECT ... WHERE
registration_no = $1 LIMIT 1` pattern of the sibling models). -/
def findByRegistrationNo (reg : String) (l : List Student) : Option Student :=
  l.find? (fun s => s.registration_no == reg)

/-- `Volunteer.findById` (`part_003`): lookup by id. -/
def volunteerFindById (i : Nat) (l : List Volunteer) : Option Volunteer :=
  l.find? (fun v => v.id == i)

/-- Modelled from the spec: `Student.processCheckInOut`
(`Student.model.js`, not in the available sources) — §4.3
`ToggleAndRecord`: read the current state, flip it (OUTSIDE→INSIDE sets
`last_entry_at := now`; INSIDE→OUTSIDE sets `last_exit_at := now` and
leaves `last_entry_at` untouched), increment `scan_count`, persist, and
return the updated row. -/
def Student.processCheckInOut (s : Student) (nowMs : Nat) : Student :=
  if s.is_inside_event then
    { s with is_inside_event := false
             last_checkout_at := some nowMs
             total_scan_count := s.total_scan_count + 1 }
  else
    { s with is_inside_event := true
             last_checkin_at := some nowMs
             total_scan_count := s.total_scan_count + 1 }

/-- Modelled from the spec: `Student.updateActiveDuration`
(`Student.model.js`, not in the available sources) — adds the computed
dwell duration to the attendee's accumulated inside minutes. -/
def Student.updateActiveDuration (s : Student) (d : Int) : Student :=
  { s with total_active_duration := s.total_active_duration + d }

/-- Persisting an updated student row: replace the row with the same id. -/
def saveStudent (l : List Student) (s : Student) : List Student :=
  l.map (fun x => if x.id == s.id then s else x)

/-- Persisting an updated volunteer row. -/
def saveVolunteer (l : List Volunteer) (v : Volunteer) : List Volunteer :=
  l.map (fun x => if x.id == v.id then v else x)

/-- The raw `UPDATE volunteers SET total_scans_performed =
total_scans_performed + 1 WHERE id = $1` of step 8 of the controller. -/
def incrementVolunteerScans (l : List Volunteer) (i : Nat) : List Volunteer :=
  l.map (fun v => if v.id == i
                  then { v with total_scans_performed := v.total_scans_performed + 1 }
                  else v)

/-! ## The scan orchestrator (`scanStudentQR`) -/

/-- The decided action of an accepted scan. -/
inductive Action where
  | ENTRY
  | EXIT
deriving DecidableEq

/-- An error response: the arguments of `errorResponse(res, message, status)`. -/
structure ErrorResp where
  message : String
  status : Nat
deriving DecidableEq

/-- The `student` object of a successful scan response
(volunteer.controller.js lines 308–334).  `none` in an `Option` field means
the field is absent from the response object. -/
structure StudentSummary where
  id : Nat
  full_name : String
  registration_no : String
  school_name : String
  is_inside_event : Bool
  total_scan_count : Nat
  check_in_time : Option Nat
  check_out_time : Option Nat
  duration_minutes : Option Int
  duration_formatted : Option String
deriving DecidableEq

/-- A successful scan response: the data of `successResponse` plus the
HTTP status code. -/
structure ScanSuccess where
  student : StudentSummary
  action : Action
  message : String
  statusMessage : String
  status : Nat
deriving DecidableEq

/-- A scan endpoint outcome. -/
inductive ScanResult where
  | err (e : ErrorResp)
  | ok (r : ScanSuccess)
deriving DecidableEq

/-- Fault model for the steps after the presence toggle: whether the
ledger write (`CheckInOut.create`) and the operator counter update throw.
A thrown error reaches the `catch` block and surfaces as a generic
server error; nothing already persisted is rolled back (there is no
transaction around the scan flow). -/
structure Faults where
  ledgerWriteOk : Bool
  counterUpdateOk : Bool
deriving DecidableEq

/-- The fault-free execution. -/
def noFaults : Faults := ⟨true, true⟩

/-- The error surfaced by the `catch (error) ... next(error)` path. -/
def internalError : ErrorResp := ⟨"Internal server error", 500⟩

/-- The inactive-volunteer guard of step 3 of the controller: reject only
when the volunteer row was found and `is_active` is false
(`if (volunteer && !volunteer.is_active)`). -/
def inactiveVolunteer : Option Volunteer → Bool
  | some v => !v.is_active
  | none => false

/-- JavaScript template `${Math.floor(d/60)}h ${d%60}m` (floor division
and truncated remainder on a possibly negative duration). -/
def durationFormatted (d : Int) : String :=
  toString (d.fdiv 60) ++ "h " ++ toString (d.tmod 60) ++ "m"

/-- The response construction of steps 9 of the controller (lines
307–343): action-specific fields, messages and status code. -/
def buildResponse (student updatedStudent : Student) (action : Action)
    (durationMinutes : Int) : ScanSuccess :=
  { student :=
      { id := updatedStudent.id
        full_name := updatedStudent.full_name
        registration_no := updatedStudent.registration_no
        school_name := updatedStudent.school_name
        is_inside_event := updatedStudent.is_inside_event
        total_scan_count := updatedStudent.total_scan_count
        check_in_time :=
          if action = .ENTRY then updatedStudent.last_checkin_at else none
        check_out_time :=
          if action = .ENTRY then none else updatedStudent.last_checkout_at
        duration_minutes :=
          if action = .ENTRY then none else some durationMinutes
        duration_formatted :=
          if action = .ENTRY then none
          else some (durationFormatted durationMinutes) }
    action := action
    message :=
      if action = .ENTRY
      then "Welcome " ++ student.full_name ++ "! Enjoy the event."
      else "Goodbye " ++ student.full_name ++ "! You spent " ++
           durationFormatted durationMinutes ++ " at the event."
    statusMessage :=
      if action = .ENTRY
      then "Student checked in successfully at entry gate"
      else "Student checked out successfully at exit gate"
    status := if action = .ENTRY then 201 else 200 }

/-- Step 8 (volunteer counter increment) followed by the response. -/
def finishScan (f : Faults) (st : ScanState) (operatorId : Nat)
    (student updatedStudent : Student) (action : Action)
    (durationMinutes : Int) : ScanResult × ScanState :=
  if f.counterUpdateOk then
    (.ok (buildResponse student updatedStudent action durationMinutes),
     { st with volunteers := incrementVolunteerScans st.volunteers operatorId })
  else
    (.err internalError, st)

/-- Steps 4–9 of the controller, after token verification, student lookup
and the volunteer guard have passed: decide the action from the current
presence flag, toggle and persist, write the ledger record (ENTRY always;
EXIT only when a previous check-in time is recorded), accumulate the
active duration on EXIT, then increment the operator counter and build
the response.  The toggle set `last_checkout_at := now`, so the EXIT
duration is `Math.floor((now - previousCheckInTime) / 60000)`. -/
def scanCore (f : Faults) (st : ScanState) (operatorId : Nat)
    (student : Student) (nowMs : Nat) : ScanResult × ScanState :=
  let action := if student.is_inside_event then Action.EXIT else Action.ENTRY
  let previousCheckInTime := student.last_checkin_at
  let updatedStudent := student.processCheckInOut nowMs
  let stToggled : ScanState :=
    { st with students := saveStudent st.students updatedStudent }
  if action = .ENTRY then
    if f.ledgerWriteOk then
      let rec1 : CheckInOutRecord :=
        ⟨student.id, operatorId, .CHECKIN, updatedStudent.total_scan_count, none⟩
      let st2 := { stToggled with checkInOuts := stToggled.checkInOuts ++ [rec1] }
      finishScan f st2 operatorId student updatedStudent action 0
    else
      (.err internalError, stToggled)
  else
    match previousCheckInTime with
    | some cin =>
        let durationMinutes : Int := ((nowMs : Int) - (cin : Int)).fdiv 60000
        if f.ledgerWriteOk then
          let rec1 : CheckInOutRecord :=
            ⟨student.id, operatorId, .CHECKOUT, updatedStudent.total_scan_count,
             some durationMinutes⟩
          let st2 :=
            { stToggled with checkInOuts := stToggled.checkInOuts ++ [rec1] }
          let savedStudents :=
            saveStudent st2.students
              (updatedStudent.updateActiveDuration durationMinutes)
          let st3 := { st2 with students := savedStudents }
          finishScan f st3 operatorId student updatedStudent action durationMinutes
        else
          (.err internalError, stToggled)
    | none =>
        finishScan f stToggled operatorId student updatedStudent action 0

/-- The scan endpoint `scanStudentQR` (volunteer.controller.js lines
195–349): require the token, verify it (rotating first, static
fallback), resolve the student by registration number, reject an
inactive volunteer, then run the toggle/ledger/counter core. -/
def scanStudentQR (secret : Nat) (f : Faults) (st : ScanState)
    (operatorId : Nat) (qr_code_token : Option PresentedToken)
    (nowMs : Nat) : ScanResult × ScanState :=
  match qr_code_token with
  | none => (.err ⟨"QR code token is required", 400⟩, st)
  | some tok =>
    match verifyPresentedToken secret tok nowMs with
    | .error _ => (.err ⟨"Invalid QR code", 400⟩, st)
    | .ok reg =>
      match findByRegistrationNo reg st.students with
      | none => (.err ⟨"Student not found. Registration: " ++ reg, 404⟩, st)
      | some student =>
        if inactiveVolunteer (volunteerFindById operatorId st.volunteers) then
          (.err ⟨"Your volunteer account is inactive. Contact admin.", 403⟩, st)
        else
          scanCore f st operatorId student nowMs

/-- Repeated scans of the same attendee's registration number: at each
listed time the scanner presents a freshly generated rotating token and
runs the scan endpoint; results are collected in order. -/
def runScans (secret : Nat) (st : ScanState) (operatorId : Nat)
    (reg : String) : List Nat → List ScanResult × ScanState
  | [] => ([], st)
  | t :: ts =>
      let tok := PresentedToken.rotating (generateRotatingStudentToken secret reg t)
      let step := scanStudentQR secret noFaults st operatorId (some tok) t
      let rest := runScans secret step.2 operatorId reg ts
      (step.1 :: rest.1, rest.2)

/-- The action of a scan outcome (`none` for a rejected scan). -/
def actionOf : ScanResult → Option Action
  | .ok r => some r.action
  | .err _ => none

/-- The presence flag recorded for student id `i` in a students table. -/
def presenceOf (l : List Student) (i : Nat) : Option Bool :=
  (l.find? (fun y => y.id == i)).map (fun y => y.is_inside_event)

/-! ## Stalls, feedback, and the student-side operations -/

/-- A stall row (fields of `Stall.model.js`). -/
structure Stall where
  id : Nat
  stall_number : Nat
  stall_name : String
  school_name : String
  qr_code_token : Option StaticToken
  total_feedback_count : Nat
  is_active : Bool
deriving DecidableEq

/-- `Stall.findByQRToken` (`Stall.model.js` lines 49–58): exact match on
the stored token (`WHERE s.qr_code_token = $1 LIMIT 1`); a malformed
presented string matches no stored token. -/
def findByQRTokenInput (tokIn : StallTokenInput) (stalls : List Stall) :
    Option Stall :=
  match tokIn with
  | .malformed _ => none
  | .tok t => stalls.find? (fun s => decide (s.qr_code_token = some t))

/-- `Stall.findById` (`Stall.model.js`). -/
def stallFindById (i : Nat) (l : List Stall) : Option Stall :=
  l.find? (fun s => s.id == i)

/-- A feedback row (`Feedback.model.js`, not in the available sources;
fields as used by `student.controller.js`). -/
structure Feedback where
  student_id : Nat
  stall_id : Nat
  rating : Int
  comment : Option String
deriving DecidableEq

/-- `Feedback.findByStudentAndStall`. -/
def findByStudentAndStall (studentId stallId : Nat) (l : List Feedback) :
    Option Feedback :=
  l.find? (fun f => f.student_id == studentId && f.stall_id == stallId)

/-- `Feedback.countByStudent`. -/
def countByStudent (studentId : Nat) (l : List Feedback) : Nat :=
  (l.filter (fun f => f.student_id == studentId)).length

/-- `Student.findById`. -/
def studentFindById (i : Nat) (l : List Student) : Option Student :=
  l.find? (fun s => s.id == i)

/-- The state the student stall operations touch. -/
structure StudentOpState where
  students : List Student
  stalls : List Stall
  feedbacks : List Feedback
deriving DecidableEq

/-- Outcome of `scanStall`. -/
inductive StallScanResult where
  | err (e : ErrorResp)
  | ok (stall_id : Nat) (already_reviewed : Bool)
deriving DecidableEq

/-- Whether a `scanStall` outcome is a success. -/
def isOkStall : StallScanResult → Bool
  | .ok _ _ => true
  | .err _ => false

/-- `scanStall` (student.controller.js lines 209–263): require the token,
verify the static stall signature, resolve the stall by token, resolve
the requesting student, reject a student who is not inside the event,
otherwise report the stall and whether feedback already exists.  The
operation writes nothing. -/
def scanStall (secret : Nat) (st : StudentOpState) (userId : Nat)
    (stall_qr_token : Option StallTokenInput) :
    StallScanResult × StudentOpState :=
  match stall_qr_token with
  | none => (.err ⟨"Stall QR code is required", 400⟩, st)
  | some tokIn =>
    match verifyStallQRToken secret tokIn with
    | none => (.err ⟨"Invalid stall QR code", 400⟩, st)
    | some _ =>
      match findByQRTokenInput tokIn st.stalls with
      | none => (.err ⟨"Stall not found", 404⟩, st)
      | some stall =>
        match studentFindById userId st.students with
        | none => (.err ⟨"Student not found. Please login again.", 404⟩, st)
        | some student =>
          if !student.is_inside_event then
            (.err ⟨"You must be checked in at the event to scan stalls", 403⟩, st)
          else
            let existing := findByStudentAndStall userId stall.id st.feedbacks
            (.ok stall.id existing.isSome, st)

/-- Outcome of `submitFeedback`. -/
inductive FeedbackResult where
  | err (e : ErrorResp)
  | ok (stall_id : Nat) (rating : Int) (total_feedbacks_given : Nat)
deriving DecidableEq

/-- Whether a `submitFeedback` outcome is a success. -/
def isOkFeedback : FeedbackResult → Bool
  | .ok _ _ _ => true
  | .err _ => false

/-- Modelled from the spec: `Student.incrementFeedbackCount`
(`Student.model.js`, not in the available sources).  The student row
carries no feedback counter in this embedding's `Student` structure, so
the increment is represented on the stall side and the returned count. -/
def incrementStallFeedbackCount (l : List Stall) (i : Nat) : List Stall :=
  l.map (fun s => if s.id == i
                  then { s with total_feedback_count := s.total_feedback_count + 1 }
                  else s)

/-- JavaScript truthiness of an optional numeric input: absent or `0` is
falsy. -/
def falsyNat (o : Option Nat) : Bool := o.getD 0 == 0

/-- JavaScript truthiness of an optional integer input. -/
def falsyInt (o : Option Int) : Bool := o.getD 0 == 0

/-- `submitFeedback` (student.controller.js lines 269–347): require stall
id and rating (JavaScript falsy check), validate the rating range,
resolve the student, reject a student who is not inside the event,
enforce the 200-feedback limit, resolve the stall, reject duplicate
feedback, then append the feedback row and bump the stall counter. -/
def submitFeedback (st : StudentOpState) (userId : Nat)
    (stall_id : Option Nat) (rating : Option Int) (comment : Option String) :
    FeedbackResult × StudentOpState :=
  if falsyNat stall_id || falsyInt rating then
    (.err ⟨"Stall ID and rating are required", 400⟩, st)
  else
    let sid := stall_id.getD 0
    let r := rating.getD 0
    if r < 1 || r > 5 then
      (.err ⟨"Rating must be between 1 and 5", 400⟩, st)
    else
      match studentFindById userId st.students with
      | none => (.err ⟨"Student not found. Please login again.", 404⟩, st)
      | some student =>
        if !student.is_inside_event then
          (.err ⟨"You must be checked in at the event to submit feedback", 403⟩, st)
        else
          let feedbackCount := countByStudent userId st.feedbacks
          if feedbackCount ≥ 200 then
            (.err ⟨"You have reached the maximum feedback limit (200)", 403⟩, st)
          else
            match stallFindById sid st.stalls with
            | none => (.err ⟨"Stall not found", 404⟩, st)
            | some _ =>
              match findByStudentAndStall userId sid st.feedbacks with
              | some _ =>
                  (.err ⟨"You have already submitted feedback for this stall", 409⟩, st)
              | none =>
                  let fb : Feedback := ⟨userId, sid, r, comment⟩
                  let st2 : StudentOpState :=
                    { st with feedbacks := st.feedbacks ++ [fb]
                              stalls := incrementStallFeedbackCount st.stalls sid }
                  (.ok sid r (feedbackCount + 1), st2)

/-! ## Concrete example data (used by counterexamples and witnesses) -/

/-- A student currently outside the event, never scanned. -/
def exStudentOut : Student :=
  ⟨1, "Asha", "REG001", "School A", false, none, none, 0, 0⟩

/-- A student recorded inside the event with no recorded check-in time
(the data inconsistency the spec describes). -/
def exStudentInNoCin : Student :=
  ⟨2, "Bela", "REG002", "School B", true, none, none, 3, 0⟩

/-- A student recorded inside the event whose recorded check-in time
(120 000 ms) is later than the scanning clock used in the examples. -/
def exStudentInLate : Student :=
  ⟨3, "Chitra", "REG003", "School C", true, some 120000, none, 5, 0⟩

/-- A deactivated volunteer row. -/
def exVolInactive : Volunteer := ⟨1, "v@e.org", "Vol", false, 0⟩

/-- A fresh rotating token for a registration number, issued at time 0
with secret 0. -/
def exTok (reg : String) : PresentedToken :=
  .rotating (generateRotatingStudentToken 0 reg 0)

/-- A stall whose static token was issued with secret 0. -/
def exStall : Stall :=
  ⟨42, 7, "Robotics", "School A", some (generateStallQRToken 0 42), 0, true⟩

/-- Whether a scan outcome is a success. -/
def isOk : ScanResult → Bool
  | .ok _ => true
  | .err _ => false

/-- The reported `duration_minutes` of a scan outcome. -/
def durationOf : ScanResult → Option Int
  | .ok r => r.student.duration_minutes
  | .err _ => none

/-! ## Lemmas about the rotating token codec -/

deriving instance DecidableEq for Except

lemma mem_candidateWindows {i w : Nat} :
    i ∈ candidateWindows w ↔
      i ≤ w + GRACE_PERIOD_WINDOWS ∧ w ≤ i + GRACE_PERIOD_WINDOWS := by
  simp only [candidateWindows, GRACE_PERIOD_WINDOWS, List.mem_map, List.mem_range]
  constructor
  · rintro ⟨k, hk, rfl⟩
    omega
  · rintro ⟨h1, h2⟩
    exact ⟨i + 2 - w, by omega, by omega⟩

lemma rotatingSignature_inj {secret : Nat} {reg : String} {c i : Nat}
    (h : rotatingSignature secret reg c = rotatingSignature secret reg i) :
    c = i := by
  simp only [rotatingSignature] at h
  omega

lemma verify_rotating_generate (secret : Nat) (reg : String) (tGen tVer : Nat) :
    verifyPresentedToken secret
        (.rotating (generateRotatingStudentToken secret reg tGen)) tVer
      = if windowIndex tGen ≤ windowIndex tVer + GRACE_PERIOD_WINDOWS ∧
           windowIndex tVer ≤ windowIndex tGen + GRACE_PERIOD_WINDOWS
        then .ok reg
        else .error .InvalidOrExpired := by
  simp only [verifyPresentedToken, verifyRotatingStudentToken,
    generateRotatingStudentToken]
  by_cases h : windowIndex tGen ≤ windowIndex tVer + GRACE_PERIOD_WINDOWS ∧
      windowIndex tVer ≤ windowIndex tGen + GRACE_PERIOD_WINDOWS
  · rw [if_pos h]
    have hany : (candidateWindows (windowIndex tVer)).any
        (fun c => rotatingSignature secret reg (windowIndex tGen)
          == rotatingSignature secret reg c) = true := by
      rw [List.any_eq_true]
      exact ⟨windowIndex tGen, mem_candidateWindows.mpr ⟨h.1, h.2⟩, by simp⟩
    simp [hany]
  · rw [if_neg h]
    have hany : (candidateWindows (windowIndex tVer)).any
        (fun c => rotatingSignature secret reg (windowIndex tGen)
          == rotatingSignature secret reg c) = false := by
      rw [List.any_eq_false]
      intro c hc
      rw [mem_candidateWindows] at hc
      simp only [beq_iff_eq]
      intro hsig
      have hci := rotatingSignature_inj hsig
      exact h ⟨by omega, by omega⟩
    simp [hany]

/-- C5: a rotating token generated at time `tGen` is accepted at
verification time `tVer` exactly when the two window indices are within
the ±2-window grace period of each other, and rejected otherwise; in
particular a token issued for window index 100 verifies at verifier
windows 98–102 and is rejected at 97 and 103. -/
theorem rotating_token_grace_window (secret : Nat) (reg : String) (tGen tVer : Nat) :
    (verifyPresentedToken secret
        (.rotating (generateRotatingStudentToken secret reg tGen)) tVer
      = if windowIndex tGen ≤ windowIndex tVer + GRACE_PERIOD_WINDOWS ∧
           windowIndex tVer ≤ windowIndex tGen + GRACE_PERIOD_WINDOWS
        then .ok reg
        else .error .InvalidOrExpired)
    ∧ (∀ v : Nat,
        verifyPresentedToken secret
            (.rotating (generateRotatingStudentToken secret reg (100 * 30000)))
            (v * 30000)
          = if 98 ≤ v ∧ v ≤ 102 then .ok reg else .error .InvalidOrExpired) := by
  refine ⟨verify_rotating_generate secret reg tGen tVer, fun v => ?_⟩
  rw [verify_rotating_generate]
  have hw1 : windowIndex (100 * 30000) = 100 := by
    simp [windowIndex, ROTATION_INTERVAL_SECONDS]
  have hw2 : windowIndex (v * 30000) = v := by
    simp [windowIndex, ROTATION_INTERVAL_SECONDS, Nat.mul_div_cancel]
  rw [hw1, hw2]
  by_cases h : 98 ≤ v ∧ v ≤ 102
  · rw [if_pos h, if_pos (by simp [GRACE_PERIOD_WINDOWS]; omega)]
  · rw [if_neg h, if_neg (by simp [GRACE_PERIOD_WINDOWS]; omega)]

/-- C8: a static stall token issued once verifies at every verification
time (the verifier has no time component), and a presented static token
is rejected exactly when its signature does not match the asset id. -/
theorem static_token_signature_only (secret : Nat) :
    (∀ assetId t : Nat,
        verifyStallQRTokenAt secret (.tok (generateStallQRToken secret assetId)) t
          = some assetId)
    ∧ (∀ (tok : StallTokenInput) (t1 t2 : Nat),
        verifyStallQRTokenAt secret tok t1 = verifyStallQRTokenAt secret tok t2)
    ∧ (∀ (a sig t : Nat),
        verifyStallQRTokenAt secret (.tok ⟨a, sig⟩) t = none
          ↔ sig ≠ staticSignature secret a) := by
  refine ⟨fun assetId t => ?_, fun tok t1 t2 => rfl, fun a sig t => ?_⟩
  · simp [verifyStallQRTokenAt, verifyStallQRToken, generateStallQRToken]
  · simp only [verifyStallQRTokenAt, verifyStallQRToken]
    by_cases h : sig = staticSignature secret a
    · simp [h]
    · simp [h]

/-- C7: a malformed token fails verification as `InvalidFormat`, a
well-formed rotating token whose signature matches no candidate window
fails as `InvalidOrExpired`, and the scan endpoint maps both failures to
the same generic client-facing error `"Invalid QR code"` with status
400, leaving the state unchanged. -/
theorem invalid_token_uniform_error (secret : Nat) (f : Faults) (st : ScanState)
    (opId nowMs : Nat) :
    (∀ raw : String,
        verifyRotatingStudentToken secret (.malformed raw) nowMs
            = .error .InvalidFormat
        ∧ scanStudentQR secret f st opId (some (.malformed raw)) nowMs
            = (.err ⟨"Invalid QR code", 400⟩, st))
    ∧ (∀ t : RotatingToken,
        verifyPresentedToken secret (.rotating t) nowMs
            = .error .InvalidOrExpired →
        scanStudentQR secret f st opId (some (.rotating t)) nowMs
            = (.err ⟨"Invalid QR code", 400⟩, st)) := by
  constructor
  · intro raw
    refine ⟨rfl, ?_⟩
    simp [scanStudentQR, verifyPresentedToken, verifyRotatingStudentToken]
  · intro t h
    simp [scanStudentQR, h]

/-- Witness for C7: at secret 0, both the malformed string `"x"` and the
rotating token with forged signature 0 produce the identical
`"Invalid QR code"` 400 response. -/
theorem invalid_token_uniform_error_witness :
    (verifyPresentedToken 0 (.rotating ⟨"R", 0, 0⟩) 0
        = .error .InvalidOrExpired)
    ∧ scanStudentQR 0 noFaults ⟨[exStudentOut], [], []⟩ 1
        (some (.malformed "x")) 0 = (.err ⟨"Invalid QR code", 400⟩, ⟨[exStudentOut], [], []⟩)
    ∧ scanStudentQR 0 noFaults ⟨[exStudentOut], [], []⟩ 1
        (some (.rotating ⟨"R", 0, 0⟩)) 0
        = (.err ⟨"Invalid QR code", 400⟩, ⟨[exStudentOut], [], []⟩) :=
  ⟨by decide,
   (invalid_token_uniform_error 0 noFaults ⟨[exStudentOut], [], []⟩ 1 0).1 "x" |>.2,
   (invalid_token_uniform_error 0 noFaults ⟨[exStudentOut], [], []⟩ 1 0).2
     ⟨"R", 0, 0⟩ (by decide)⟩

/-! ## Lemmas about the presence toggle and the orchestrator -/

lemma processCheckInOut_id (s : Student) (t : Nat) :
    (s.processCheckInOut t).id = s.id := by
  unfold Student.processCheckInOut
  split <;> rfl

lemma processCheckInOut_reg (s : Student) (t : Nat) :
    (s.processCheckInOut t).registration_no = s.registration_no := by
  unfold Student.processCheckInOut
  split <;> rfl

lemma processCheckInOut_flag (s : Student) (t : Nat) :
    (s.processCheckInOut t).is_inside_event = !s.is_inside_event := by
  unfold Student.processCheckInOut
  split <;> rename_i h <;> simp [h]

lemma processCheckInOut_count (s : Student) (t : Nat) :
    (s.processCheckInOut t).total_scan_count = s.total_scan_count + 1 := by
  unfold Student.processCheckInOut
  split <;> rfl

lemma processCheckInOut_checkin_entry (s : Student) (t : Nat)
    (h : s.is_inside_event = false) :
    (s.processCheckInOut t).last_checkin_at = some t := by
  unfold Student.processCheckInOut
  rw [h]
  rfl

lemma processCheckInOut_checkout_exit (s : Student) (t : Nat)
    (h : s.is_inside_event = true) :
    (s.processCheckInOut t).last_checkout_at = some t := by
  unfold Student.processCheckInOut
  rw [h]
  rfl

lemma updateActiveDuration_id (s : Student) (d : Int) :
    (s.updateActiveDuration d).id = s.id := rfl

lemma updateActiveDuration_reg (s : Student) (d : Int) :
    (s.updateActiveDuration d).registration_no = s.registration_no := rfl

lemma updateActiveDuration_flag (s : Student) (d : Int) :
    (s.updateActiveDuration d).is_inside_event = s.is_inside_event := rfl

lemma find?_saveStudent (l : List Student) (s : Student)
    (hx : ∃ x ∈ l, x.id = s.id) :
    (saveStudent l s).find? (fun y => y.id == s.id) = some s := by
  induction l with
  | nil => simp at hx
  | cons a as ih =>
      by_cases h : a.id = s.id
      · have hb : (a.id == s.id) = true := by simp [h]
        simp [saveStudent, List.find?, hb]
      · have hb : (a.id == s.id) = false := by simp [h]
        have htail : ∃ x ∈ as, x.id = s.id := by
          obtain ⟨x, hm, hid⟩ := hx
          rcases List.mem_cons.mp hm with hxa | hxas
          · exact absurd (hxa ▸ hid) h
          · exact ⟨x, hxas, hid⟩
        simpa [saveStudent, List.find?, hb] using ih htail

lemma mem_saveStudent (l : List Student) (s : Student)
    (hx : ∃ x ∈ l, x.id = s.id) : s ∈ saveStudent l s :=
  List.mem_of_find?_eq_some (find?_saveStudent l s hx)

lemma presenceOf_saveStudent (l : List Student) (s : Student) (i : Nat)
    (hi : s.id = i) (hx : ∃ x ∈ l, x.id = s.id) :
    presenceOf (saveStudent l s) i = some s.is_inside_event := by
  subst hi
  unfold presenceOf
  rw [find?_saveStudent l s hx]
  rfl

lemma saveStudent_singleton (s u : Student) (h : u.id = s.id) :
    saveStudent [s] u = [u] := by
  simp [saveStudent, h]

/-- Full characterization of the fault-free core: outcome and state for
each of the three branches (ENTRY, EXIT with a recorded check-in, EXIT
without one). -/
lemma scanCore_noFaults (st : ScanState) (opId : Nat) (student : Student)
    (t : Nat) :
    scanCore noFaults st opId student t =
      if student.is_inside_event then
        match student.last_checkin_at with
        | some cin =>
            (.ok (buildResponse student (student.processCheckInOut t) .EXIT
                    (((t : Int) - (cin : Int)).fdiv 60000)),
             { students :=
                 saveStudent (saveStudent st.students (student.processCheckInOut t))
                   ((student.processCheckInOut t).updateActiveDuration
                     (((t : Int) - (cin : Int)).fdiv 60000))
               volunteers := incrementVolunteerScans st.volunteers opId
               checkInOuts := st.checkInOuts ++
                 [⟨student.id, opId, .CHECKOUT, student.total_scan_count + 1,
                   some (((t : Int) - (cin : Int)).fdiv 60000)⟩] })
        | none =>
            (.ok (buildResponse student (student.processCheckInOut t) .EXIT 0),
             { students := saveStudent st.students (student.processCheckInOut t)
               volunteers := incrementVolunteerScans st.volunteers opId
               checkInOuts := st.checkInOuts })
      else
        (.ok (buildResponse student (student.processCheckInOut t) .ENTRY 0),
         { students := saveStudent st.students (student.processCheckInOut t)
           volunteers := incrementVolunteerScans st.volunteers opId
           checkInOuts := st.checkInOuts ++
             [⟨student.id, opId, .CHECKIN, student.total_scan_count + 1, none⟩] }) := by
  unfold scanCore finishScan noFaults
  cases hflag : student.is_inside_event with
  | false =>
      simp [hflag, processCheckInOut_count]
  | true =>
      cases hcin : student.last_checkin_at with
      | none => simp [hflag, hcin]
      | some cin => simp [hflag, hcin, processCheckInOut_count]

/-- Under any fault configuration, once the core runs the toggled
presence flag is what the state records for the student. -/
lemma scanCore_presence (f : Faults) (st : ScanState) (opId : Nat)
    (student : Student) (t : Nat)
    (hx : ∃ x ∈ st.students, x.id = student.id) :
    presenceOf ((scanCore f st opId student t).2).students student.id
      = some (!student.is_inside_event) := by
  have hid : (student.processCheckInOut t).id = student.id :=
    processCheckInOut_id student t
  have hx1 : ∃ x ∈ st.students, x.id = (student.processCheckInOut t).id := by
    rw [hid]; exact hx
  have hp1 : presenceOf (saveStudent st.students (student.processCheckInOut t))
      student.id = some (!student.is_inside_event) := by
    rw [← processCheckInOut_flag student t]
    exact presenceOf_saveStudent _ _ _ hid hx1
  unfold scanCore finishScan
  cases hflag : student.is_inside_event with
  | false =>
      cases hledger : f.ledgerWriteOk <;>
        cases hcounter : f.counterUpdateOk <;>
          simp_all [presenceOf]
  | true =>
      cases hcin : student.last_checkin_at with
      | none =>
          cases hcounter : f.counterUpdateOk <;> simp_all [presenceOf]
      | some cin =>
          cases hledger : f.ledgerWriteOk with
          | false =>
              cases hcounter : f.counterUpdateOk <;> simp_all [presenceOf]
          | true =>
              have hid2 : ((student.processCheckInOut t).updateActiveDuration
                  (((t : Int) - (cin : Int)).fdiv 60000)).id
                  = (student.processCheckInOut t).id := rfl
              have hx2 : ∃ x ∈ saveStudent st.students (student.processCheckInOut t),
                  x.id = ((student.processCheckInOut t).updateActiveDuration
                    (((t : Int) - (cin : Int)).fdiv 60000)).id := by
                rw [hid2]
                exact ⟨student.processCheckInOut t, mem_saveStudent _ _ hx1, rfl⟩
              have hp2 : presenceOf
                  (saveStudent (saveStudent st.students (student.processCheckInOut t))
                    ((student.processCheckInOut t).updateActiveDuration
                      (((t : Int) - (cin : Int)).fdiv 60000)))
                  student.id = some (!student.is_inside_event) := by
                rw [← processCheckInOut_flag student t]
                have := presenceOf_saveStudent
                  (saveStudent st.students (student.processCheckInOut t))
                  ((student.processCheckInOut t).updateActiveDuration
                    (((t : Int) - (cin : Int)).fdiv 60000))
                  student.id (by rw [hid2, hid]) hx2
                simpa [updateActiveDuration_flag] using this
              cases hcounter : f.counterUpdateOk <;> simp_all [presenceOf]

/-- When verification, lookup and the volunteer guard pass, the endpoint
runs the core. -/
lemma scanStudentQR_ok (secret : Nat) (f : Faults) (st : ScanState) (opId : Nat)
    (tok : PresentedToken) (now : Nat) (reg : String) (student : Student)
    (hver : verifyPresentedToken secret tok now = .ok reg)
    (hfind : findByRegistrationNo reg st.students = some student)
    (hvol : inactiveVolunteer (volunteerFindById opId st.volunteers) = false) :
    scanStudentQR secret f st opId (some tok) now = scanCore f st opId student now := by
  simp [scanStudentQR, hver, hfind, hvol]

lemma findByRegistrationNo_singleton (s : Student) :
    findByRegistrationNo s.registration_no [s] = some s := by
  simp [findByRegistrationNo, List.find?]

lemma verify_generate_now (secret : Nat) (reg : String) (t : Nat) :
    verifyPresentedToken secret
        (.rotating (generateRotatingStudentToken secret reg t)) t = .ok reg := by
  rw [verify_rotating_generate]
  simp

/-- A single scan of a one-student database with a freshly generated
token: it is accepted, the action is decided by the pre-scan presence
flag, and the stored student's flag flips. -/
lemma scanStudentQR_singleton (secret opId : Nat) (s : Student)
    (vols : List Volunteer) (recs : List CheckInOutRecord) (t : Nat)
    (hvol : inactiveVolunteer (volunteerFindById opId vols) = false) :
    ∃ (resp : ScanSuccess) (s' : Student) (recs' : List CheckInOutRecord),
      scanStudentQR secret noFaults ⟨[s], vols, recs⟩ opId
          (some (.rotating (generateRotatingStudentToken secret s.registration_no t))) t
        = (.ok resp, ⟨[s'], incrementVolunteerScans vols opId, recs'⟩)
      ∧ resp.action = (if s.is_inside_event then Action.EXIT else Action.ENTRY)
      ∧ s'.is_inside_event = !s.is_inside_event
      ∧ s'.registration_no = s.registration_no := by
  have hcore := scanStudentQR_ok secret noFaults ⟨[s], vols, recs⟩ opId
    (.rotating (generateRotatingStudentToken secret s.registration_no t)) t
    s.registration_no s (verify_generate_now secret s.registration_no t)
    (findByRegistrationNo_singleton s) hvol
  rw [hcore, scanCore_noFaults]
  cases hflag : s.is_inside_event with
  | false =>
      simp only [Bool.false_eq_true, if_false]
      rw [saveStudent_singleton s (s.processCheckInOut t) (processCheckInOut_id s t)]
      exact ⟨_, s.processCheckInOut t, _, rfl, by simp [buildResponse],
        by rw [processCheckInOut_flag, hflag], processCheckInOut_reg s t⟩
  | true =>
      cases hcin : s.last_checkin_at with
      | none =>
          simp only [if_true]
          rw [saveStudent_singleton s (s.processCheckInOut t) (processCheckInOut_id s t)]
          exact ⟨_, s.processCheckInOut t, _, rfl, by simp [buildResponse],
            by rw [processCheckInOut_flag, hflag], processCheckInOut_reg s t⟩
      | some cin =>
          simp only [if_true]
          rw [saveStudent_singleton s (s.processCheckInOut t) (processCheckInOut_id s t),
            saveStudent_singleton (s.processCheckInOut t)
              ((s.processCheckInOut t).updateActiveDuration
                (((t : Int) - (cin : Int)).fdiv 60000)) rfl]
          exact ⟨_,
            (s.processCheckInOut t).updateActiveDuration
              (((t : Int) - (cin : Int)).fdiv 60000), _, rfl,
            by simp [buildResponse],
            by rw [updateActiveDuration_flag, processCheckInOut_flag, hflag],
            processCheckInOut_reg s t⟩

lemma inactiveVolunteer_increment (l : List Volunteer) (i j : Nat)
    (h : inactiveVolunteer (volunteerFindById i l) = false) :
    inactiveVolunteer (volunteerFindById i (incrementVolunteerScans l j)) = false := by
  unfold volunteerFindById incrementVolunteerScans at *
  rw [List.find?_map]
  have hfun : ((fun v : Volunteer => v.id == i) ∘
        (fun v : Volunteer => if v.id == j
          then { v with total_scans_performed := v.total_scans_performed + 1 }
          else v)) = (fun v : Volunteer => v.id == i) := by
    funext v
    by_cases hj : v.id = j <;> simp [hj]
  rw [hfun]
  cases hfind : l.find? (fun v => v.id == i) with
  | none => simp [inactiveVolunteer]
  | some v =>
      rw [hfind] at h
      by_cases hj : v.id = j <;>
        simp_all [inactiveVolunteer]

/-- Accepted scans over a one-student database alternate, starting from
the action determined by the initial presence flag. -/
lemma runScans_singleton (secret opId : Nat) :
    ∀ (times : List Nat) (s : Student) (vols : List Volunteer)
      (recs : List CheckInOutRecord),
      inactiveVolunteer (volunteerFindById opId vols) = false →
      (runScans secret ⟨[s], vols, recs⟩ opId s.registration_no times).1.map actionOf
        = (List.range times.length).map
            (fun i => some (if (s.is_inside_event ^^ decide (i % 2 = 1))
              then Action.EXIT else Action.ENTRY)) := by
  intro times
  induction times with
  | nil => intro s vols recs _; simp [runScans]
  | cons t ts ih =>
      intro s vols recs hvol
      obtain ⟨resp, s', recs', heq, haction, hflag, hreg⟩ :=
        scanStudentQR_singleton secret opId s vols recs t hvol
      have hvol' : inactiveVolunteer
          (volunteerFindById opId (incrementVolunteerScans vols opId)) = false :=
        inactiveVolunteer_increment vols opId opId hvol
      have hrest := ih s' (incrementVolunteerScans vols opId) recs' hvol'
      rw [hreg] at hrest
      simp only [runScans, heq, List.map_cons, List.length_cons]
      rw [List.range_succ_eq_map, List.map_cons, List.map_map]
      congr 1
      · rw [show actionOf (ScanResult.ok resp) = some resp.action from rfl, haction]
        cases s.is_inside_event <;> rfl
      · rw [hrest]
        apply List.map_congr_left
        intro i _
        simp only [Function.comp_apply]
        rw [hflag]
        have hsucc : Nat.succ i % 2 = 1 ↔ ¬ (i % 2 = 1) := by omega
        by_cases hi : i % 2 = 1
        · have d1 : decide (i % 2 = 1) = true := by simp [hi]
          have d2 : decide (Nat.succ i % 2 = 1) = false := by simp [hsucc, hi]
          rw [d1, d2]
          cases s.is_inside_event <;> rfl
        · have d1 : decide (i % 2 = 1) = false := by simp [hi]
          have d2 : decide (Nat.succ i % 2 = 1) = true := by simp [hsucc, hi]
          rw [d1, d2]
          cases s.is_inside_event <;> rfl

/-! ## Claims about the scan orchestrator -/

/-- C1: accepted scans of an attendee strictly alternate ENTRY, EXIT,
ENTRY, … starting from ENTRY on the first ever scan of a student who is
outside; and in general the orchestrator derives ENTRY exactly when the
pre-toggle presence flag is false, EXIT otherwise, and every accepted
scan flips the stored flag. -/
theorem scans_alternate_from_entry (secret opId : Nat) (s : Student)
    (vols : List Volunteer) (recs : List CheckInOutRecord) (times : List Nat)
    (hout : s.is_inside_event = false)
    (hvol : inactiveVolunteer (volunteerFindById opId vols) = false) :
    ((runScans secret ⟨[s], vols, recs⟩ opId s.registration_no times).1.map actionOf
        = (List.range times.length).map
            (fun i => some (if i % 2 = 0 then Action.ENTRY else Action.EXIT)))
    ∧ (∀ (st : ScanState) (tok : PresentedToken) (now : Nat) (reg : String)
         (student : Student),
         verifyPresentedToken secret tok now = .ok reg →
         findByRegistrationNo reg st.students = some student →
         inactiveVolunteer (volunteerFindById opId st.volunteers) = false →
         actionOf (scanStudentQR secret noFaults st opId (some tok) now).1
             = some (if student.is_inside_event then Action.EXIT else Action.ENTRY)
           ∧ presenceOf
               ((scanStudentQR secret noFaults st opId (some tok) now).2).students
               student.id = some (!student.is_inside_event)) := by
  constructor
  · rw [runScans_singleton secret opId times s vols recs hvol]
    apply List.map_congr_left
    intro i _
    rw [hout]
    simp only [Bool.false_xor]
    by_cases hi : i % 2 = 0
    · have h1 : decide (i % 2 = 1) = false := decide_eq_false (by omega)
      rw [h1]
      simp [hi]
    · have h1 : decide (i % 2 = 1) = true := decide_eq_true (by omega)
      rw [h1]
      simp [hi]
  · intro st tok now reg student hver hfind hvolst
    rw [scanStudentQR_ok secret noFaults st opId tok now reg student hver hfind hvolst]
    constructor
    · rw [scanCore_noFaults]
      cases hflag : student.is_inside_event
      · simp [actionOf, buildResponse]
      · cases hcin : student.last_checkin_at <;> simp [actionOf, buildResponse]
    · exact scanCore_presence noFaults st opId student now
        ⟨student, List.mem_of_find?_eq_some hfind, rfl⟩

/-- Witness for C1: two scans of a fresh outside student at times 0 and
60 000 ms are accepted as ENTRY then EXIT. -/
theorem scans_alternate_from_entry_witness :
    exStudentOut.is_inside_event = false
    ∧ (runScans 0 ⟨[exStudentOut], [], []⟩ 1 exStudentOut.registration_no
          [0, 60000]).1.map actionOf
        = (List.range 2).map
            (fun i => some (if i % 2 = 0 then Action.ENTRY else Action.EXIT)) :=
  ⟨rfl, (scans_alternate_from_entry 0 1 exStudentOut [] [] [0, 60000] rfl rfl).1⟩

/-- Counterexample to C2 as stated: a student recorded inside with
check-in time 120 000 ms, scanned out at clock 0, yields an accepted EXIT
whose reported duration is −2 minutes — the code computes
`Math.floor((now − previousCheckInTime)/60000)` with no clamping. -/
theorem exit_duration_negative_counterexample :
    isOk (scanStudentQR 0 noFaults ⟨[exStudentInLate], [], []⟩ 1
        (some (exTok "REG003")) 0).1 = true
    ∧ durationOf (scanStudentQR 0 noFaults ⟨[exStudentInLate], [], []⟩ 1
        (some (exTok "REG003")) 0).1 = some (-2) := by
  decide

/-- C2 (amended): for an accepted EXIT scan the reported duration is the
floor division of `(now − previousCheckInTime)` by 60 000 ms — negative
when the scanning clock reads earlier than the recorded check-in, with no
clamping — and is 0 when no previous check-in time is recorded, the scan
still succeeding in that case. -/
theorem exit_duration_floor_unclamped (secret : Nat) (st : ScanState)
    (opId : Nat) (tok : PresentedToken) (now : Nat) (reg : String)
    (student : Student)
    (hver : verifyPresentedToken secret tok now = .ok reg)
    (hfind : findByRegistrationNo reg st.students = some student)
    (hvol : inactiveVolunteer (volunteerFindById opId st.volunteers) = false)
    (hin : student.is_inside_event = true) :
    (∀ cin, student.last_checkin_at = some cin →
       ∃ resp st', scanStudentQR secret noFaults st opId (some tok) now
           = (.ok resp, st')
         ∧ resp.student.duration_minutes
             = some (((now : Int) - (cin : Int)).fdiv 60000))
    ∧ (student.last_checkin_at = none →
       ∃ resp st', scanStudentQR secret noFaults st opId (some tok) now
           = (.ok resp, st')
         ∧ resp.student.duration_minutes = some 0) := by
  rw [scanStudentQR_ok secret noFaults st opId tok now reg student hver hfind hvol,
    scanCore_noFaults]
  constructor
  · intro cin hcin
    simp only [hin, hcin, if_true]
    exact ⟨_, _, rfl, by simp [buildResponse]⟩
  · intro hcin
    simp only [hin, hcin, if_true]
    exact ⟨_, _, rfl, by simp [buildResponse]⟩

/-- Witness for C2 (amended): the concrete inside student with check-in
120 000 ms scanned at clock 0 reports `fdiv (0 − 120000) 60000`. -/
theorem exit_duration_floor_unclamped_witness :
    exStudentInLate.is_inside_event = true
    ∧ exStudentInLate.last_checkin_at = some 120000
    ∧ ∃ resp st', scanStudentQR 0 noFaults ⟨[exStudentInLate], [], []⟩ 1
          (some (exTok "REG003")) 0 = (.ok resp, st')
        ∧ resp.student.duration_minutes
            = some (((0 : Int) - (120000 : Int)).fdiv 60000) :=
  ⟨rfl, rfl,
   (exit_duration_floor_unclamped 0 ⟨[exStudentInLate], [], []⟩ 1
      (exTok "REG003") 0 "REG003" exStudentInLate (by decide) (by decide)
      rfl rfl).1 120000 rfl⟩

/-- Counterexample to C3 as stated: an accepted EXIT scan of a student
recorded inside with no recorded check-in time creates no ledger record
at all (the `else if (action === 'EXIT' && previousCheckInTime)` guard
skips the write). -/
theorem ledger_missing_on_inconsistent_exit_counterexample :
    isOk (scanStudentQR 0 noFaults ⟨[exStudentInNoCin], [], []⟩ 1
        (some (exTok "REG002")) 0).1 = true
    ∧ ((scanStudentQR 0 noFaults ⟨[exStudentInNoCin], [], []⟩ 1
        (some (exTok "REG002")) 0).2).checkInOuts = [] := by
  decide

/-- C3 (amended): each accepted ENTRY scan, and each accepted EXIT scan
with a recorded previous check-in time, appends exactly one ledger record
with the matching kind, sequence number equal to the post-toggle scan
count, and duration null for ENTRY and the computed value for EXIT; an
accepted EXIT with no recorded check-in time appends none. -/
theorem ledger_entry_per_accepted_scan (secret : Nat) (st : ScanState)
    (opId : Nat) (tok : PresentedToken) (now : Nat) (reg : String)
    (student : Student)
    (hver : verifyPresentedToken secret tok now = .ok reg)
    (hfind : findByRegistrationNo reg st.students = some student)
    (hvol : inactiveVolunteer (volunteerFindById opId st.volunteers) = false) :
    (student.is_inside_event = false →
        ((scanStudentQR secret noFaults st opId (some tok) now).2).checkInOuts
          = st.checkInOuts ++
              [⟨student.id, opId, .CHECKIN, student.total_scan_count + 1, none⟩])
    ∧ (∀ cin, student.is_inside_event = true →
        student.last_checkin_at = some cin →
        ((scanStudentQR secret noFaults st opId (some tok) now).2).checkInOuts
          = st.checkInOuts ++
              [⟨student.id, opId, .CHECKOUT, student.total_scan_count + 1,
                some (((now : Int) - (cin : Int)).fdiv 60000)⟩])
    ∧ (student.is_inside_event = true → student.last_checkin_at = none →
        isOk (scanStudentQR secret noFaults st opId (some tok) now).1 = true
        ∧ ((scanStudentQR secret noFaults st opId (some tok) now).2).checkInOuts
            = st.checkInOuts) := by
  rw [scanStudentQR_ok secret noFaults st opId tok now reg student hver hfind hvol,
    scanCore_noFaults]
  refine ⟨?_, ?_, ?_⟩
  · intro hflag
    simp [hflag]
  · intro cin hflag hcin
    simp [hflag, hcin]
  · intro hflag hcin
    simp [hflag, hcin, isOk]

/-- Witness for C3 (amended): the ENTRY case at concrete inputs. -/
theorem ledger_entry_per_accepted_scan_witness :
    exStudentOut.is_inside_event = false
    ∧ ((scanStudentQR 0 noFaults ⟨[exStudentOut], [], []⟩ 1
          (some (exTok "REG001")) 0).2).checkInOuts
        = [] ++ [⟨exStudentOut.id, 1, .CHECKIN, exStudentOut.total_scan_count + 1, none⟩] :=
  ⟨rfl,
   (ledger_entry_per_accepted_scan 0 ⟨[exStudentOut], [], []⟩ 1
      (exTok "REG001") 0 "REG001" exStudentOut (by decide) (by decide) rfl).1 rfl⟩

/-- C4: every failure before the toggle (missing token, failed
verification, unknown student, inactive volunteer) returns its error with
the state unchanged, under any fault configuration; and once
verification, lookup and the guard have passed, the stored presence flag
is flipped regardless of whether the ledger write or the counter update
fails afterwards. -/
theorem failfast_and_toggle_authoritative (secret : Nat) (f : Faults)
    (st : ScanState) (opId now : Nat) :
    (scanStudentQR secret f st opId none now
        = (.err ⟨"QR code token is required", 400⟩, st))
    ∧ (∀ tok e, verifyPresentedToken secret tok now = .error e →
        scanStudentQR secret f st opId (some tok) now
          = (.err ⟨"Invalid QR code", 400⟩, st))
    ∧ (∀ tok reg, verifyPresentedToken secret tok now = .ok reg →
        findByRegistrationNo reg st.students = none →
        scanStudentQR secret f st opId (some tok) now
          = (.err ⟨"Student not found. Registration: " ++ reg, 404⟩, st))
    ∧ (∀ tok reg student, verifyPresentedToken secret tok now = .ok reg →
        findByRegistrationNo reg st.students = some student →
        inactiveVolunteer (volunteerFindById opId st.volunteers) = true →
        scanStudentQR secret f st opId (some tok) now
          = (.err ⟨"Your volunteer account is inactive. Contact admin.", 403⟩, st))
    ∧ (∀ tok reg student, verifyPresentedToken secret tok now = .ok reg →
        findByRegistrationNo reg st.students = some student →
        inactiveVolunteer (volunteerFindById opId st.volunteers) = false →
        presenceOf ((scanStudentQR secret f st opId (some tok) now).2).students
            student.id = some (!student.is_inside_event)) := by
  refine ⟨rfl, ?_, ?_, ?_, ?_⟩
  · intro tok e hver
    simp [scanStudentQR, hver]
  · intro tok reg hver hfind
    simp [scanStudentQR, hver, hfind]
  · intro tok reg student hver hfind hvol
    simp [scanStudentQR, hver, hfind, hvol]
  · intro tok reg student hver hfind hvol
    rw [scanStudentQR_ok secret f st opId tok now reg student hver hfind hvol]
    exact scanCore_presence f st opId student now
      ⟨student, List.mem_of_find?_eq_some hfind, rfl⟩

/-- Witness for C4: with the ledger write failing (`ledgerWriteOk =
false`), the scan of a fresh outside student still leaves the stored
presence flag flipped to inside. -/
theorem failfast_and_toggle_authoritative_witness :
    verifyPresentedToken 0 (exTok "REG001") 0 = .ok "REG001"
    ∧ findByRegistrationNo "REG001" [exStudentOut] = some exStudentOut
    ∧ inactiveVolunteer (volunteerFindById 1 []) = false
    ∧ presenceOf ((scanStudentQR 0 ⟨false, true⟩ ⟨[exStudentOut], [], []⟩ 1
          (some (exTok "REG001")) 0).2).students exStudentOut.id
        = some (!exStudentOut.is_inside_event) :=
  ⟨by decide, by decide, rfl,
   (failfast_and_toggle_authoritative 0 ⟨false, true⟩ ⟨[exStudentOut], [], []⟩
      1 0).2.2.2.2 (exTok "REG001") "REG001" exStudentOut (by decide)
      (by decide) rfl⟩

/-- Counterexample to C6 as stated: when the operator lookup finds no
volunteer row (`volunteer` is null), the scan proceeds and succeeds
instead of failing with Forbidden — the guard is
`if (volunteer && !volunteer.is_active)`. -/
theorem operator_missing_scan_proceeds_counterexample :
    volunteerFindById 1 ([] : List Volunteer) = none
    ∧ isOk (scanStudentQR 0 noFaults ⟨[exStudentOut], [], []⟩ 1
        (some (exTok "REG001")) 0).1 = true := by
  decide

/-- C6 (amended): the operator guard rejects with 403 and no state
change exactly when the volunteer row is found and marked inactive; when
the lookup finds no row the scan proceeds to the core unchecked. -/
theorem operator_inactive_guard (secret : Nat) (f : Faults) (st : ScanState)
    (opId now : Nat) (tok : PresentedToken) (reg : String) (student : Student)
    (hver : verifyPresentedToken secret tok now = .ok reg)
    (hfind : findByRegistrationNo reg st.students = some student) :
    (∀ v, volunteerFindById opId st.volunteers = some v → v.is_active = false →
        scanStudentQR secret f st opId (some tok) now
          = (.err ⟨"Your volunteer account is inactive. Contact admin.", 403⟩, st))
    ∧ (volunteerFindById opId st.volunteers = none →
        scanStudentQR secret f st opId (some tok) now
          = scanCore f st opId student now) := by
  constructor
  · intro v hv hact
    have hguard : inactiveVolunteer (volunteerFindById opId st.volunteers) = true := by
      rw [hv]
      simp [inactiveVolunteer, hact]
    simp [scanStudentQR, hver, hfind, hguard]
  · intro hnone
    have hguard : inactiveVolunteer (volunteerFindById opId st.volunteers) = false := by
      rw [hnone]
      rfl
    exact scanStudentQR_ok secret f st opId tok now reg student hver hfind hguard

/-- Witness for C6 (amended): a found-and-inactive volunteer is rejected
with 403 and the state is unchanged. -/
theorem operator_inactive_guard_witness :
    verifyPresentedToken 0 (exTok "REG001") 0 = .ok "REG001"
    ∧ volunteerFindById 1 [exVolInactive] = some exVolInactive
    ∧ exVolInactive.is_active = false
    ∧ scanStudentQR 0 noFaults ⟨[exStudentOut], [exVolInactive], []⟩ 1
          (some (exTok "REG001")) 0
        = (.err ⟨"Your volunteer account is inactive. Contact admin.", 403⟩,
           ⟨[exStudentOut], [exVolInactive], []⟩) :=
  ⟨by decide, by decide, rfl,
   (operator_inactive_guard 0 noFaults ⟨[exStudentOut], [exVolInactive], []⟩
      1 0 (exTok "REG001") "REG001" exStudentOut (by decide) (by decide)).1
      exVolInactive (by decide) rfl⟩

/-- C10: an accepted ENTRY scan responds with status 201, the welcome
message, a present check-in time and no duration or check-out fields; an
accepted EXIT scan responds with status 200, the goodbye message, a
present check-out time and duration fields and no check-in field. -/
theorem response_status_by_action (secret : Nat) (st : ScanState)
    (opId now : Nat) (tok : PresentedToken) (reg : String) (student : Student)
    (hver : verifyPresentedToken secret tok now = .ok reg)
    (hfind : findByRegistrationNo reg st.students = some student)
    (hvol : inactiveVolunteer (volunteerFindById opId st.volunteers) = false) :
    (student.is_inside_event = false →
       ∃ resp st', scanStudentQR secret noFaults st opId (some tok) now
           = (.ok resp, st')
         ∧ resp.action = .ENTRY
         ∧ resp.status = 201
         ∧ resp.statusMessage = "Student checked in successfully at entry gate"
         ∧ resp.student.duration_minutes = none
         ∧ resp.student.duration_formatted = none
         ∧ resp.student.check_out_time = none
         ∧ resp.student.check_in_time = some now
         ∧ resp.message = "Welcome " ++ student.full_name ++ "! Enjoy the event.")
    ∧ (student.is_inside_event = true →
       ∃ resp st' d, scanStudentQR secret noFaults st opId (some tok) now
           = (.ok resp, st')
         ∧ resp.action = .EXIT
         ∧ resp.status = 200
         ∧ resp.statusMessage = "Student checked out successfully at exit gate"
         ∧ resp.student.duration_minutes = some d
         ∧ resp.student.duration_formatted = some (durationFormatted d)
         ∧ resp.student.check_in_time = none
         ∧ resp.student.check_out_time = some now
         ∧ resp.message = "Goodbye " ++ student.full_name ++ "! You spent "
             ++ durationFormatted d ++ " at the event.") := by
  rw [scanStudentQR_ok secret noFaults st opId tok now reg student hver hfind hvol,
    scanCore_noFaults]
  constructor
  · intro hflag
    simp only [hflag, Bool.false_eq_true, if_false]
    exact ⟨_, _, rfl, by simp [buildResponse], by simp [buildResponse],
      by simp [buildResponse], by simp [buildResponse], by simp [buildResponse],
      by simp [buildResponse],
      by simp [buildResponse, processCheckInOut_checkin_entry student now hflag],
      by simp [buildResponse]⟩
  · intro hflag
    cases hcin : student.last_checkin_at with
    | some cin =>
        simp only [hflag, hcin, if_true]
        exact ⟨_, _, ((now : Int) - (cin : Int)).fdiv 60000, rfl,
          by simp [buildResponse], by simp [buildResponse],
          by simp [buildResponse], by simp [buildResponse], by simp [buildResponse],
          by simp [buildResponse],
          by simp [buildResponse, processCheckInOut_checkout_exit student now hflag],
          by simp [buildResponse]⟩
    | none =>
        simp only [hflag, hcin, if_true]
        exact ⟨_, _, 0, rfl, by simp [buildResponse], by simp [buildResponse],
          by simp [buildResponse], by simp [buildResponse], by simp [buildResponse],
          by simp [buildResponse],
          by simp [buildResponse, processCheckInOut_checkout_exit student now hflag],
          by simp [buildResponse]⟩

/-- Witness for C10: the ENTRY case at concrete inputs. -/
theorem response_status_by_action_witness :
    exStudentOut.is_inside_event = false
    ∧ ∃ resp st', scanStudentQR 0 noFaults ⟨[exStudentOut], [], []⟩ 1
          (some (exTok "REG001")) 0 = (.ok resp, st')
        ∧ resp.action = .ENTRY
        ∧ resp.status = 201
        ∧ resp.statusMessage = "Student checked in successfully at entry gate"
        ∧ resp.student.duration_minutes = none
        ∧ resp.student.duration_formatted = none
        ∧ resp.student.check_out_time = none
        ∧ resp.student.check_in_time = some 0
        ∧ resp.message = "Welcome " ++ exStudentOut.full_name ++ "! Enjoy the event." :=
  ⟨rfl,
   (response_status_by_action 0 ⟨[exStudentOut], [], []⟩ 1 0 (exTok "REG001")
      "REG001" exStudentOut (by decide) (by decide) rfl).1 rfl⟩

/-- Counterexample to C9 as stated: a request by a student who is
outside can fail with a status other than 403 — here the stall lookup
fails first and the response is 404, although the student's presence
state is not INSIDE. -/
theorem stall_scan_outside_not_403_counterexample :
    (studentFindById 1 [exStudentOut]).map (fun s => s.is_inside_event)
        = some false
    ∧ scanStall 0 ⟨[exStudentOut], [], []⟩ 1
          (some (.tok (generateStallQRToken 0 42)))
        = (.err ⟨"Stall not found", 404⟩, ⟨[exStudentOut], [], []⟩) := by
  decide

/-- C9 (amended): when the requesting student's record is found and the
presence state is not INSIDE, `scanStall` and `submitFeedback` never
succeed and never change state; the failure status is 403 exactly when
the validations preceding the inside check pass (valid stall token and
stall found for `scanStall`; present stall id and in-range rating for
`submitFeedback`), while earlier validation failures return their own
400/404 errors. -/
theorem stall_ops_require_inside (secret : Nat) (st : StudentOpState)
    (userId : Nat) (student : Student)
    (hfind : studentFindById userId st.students = some student)
    (hout : student.is_inside_event = false) :
    (∀ tokIn, isOkStall (scanStall secret st userId tokIn).1 = false
        ∧ (scanStall secret st userId tokIn).2 = st)
    ∧ (∀ sid r c, isOkFeedback (submitFeedback st userId sid r c).1 = false
        ∧ (submitFeedback st userId sid r c).2 = st)
    ∧ (∀ tokIn stall a, verifyStallQRToken secret tokIn = some a →
        findByQRTokenInput tokIn st.stalls = some stall →
        scanStall secret st userId (some tokIn)
          = (.err ⟨"You must be checked in at the event to scan stalls", 403⟩, st))
    ∧ (∀ (sid : Nat) (r : Int) (c : Option String), sid ≠ 0 → 1 ≤ r → r ≤ 5 →
        submitFeedback st userId (some sid) (some r) c
          = (.err ⟨"You must be checked in at the event to submit feedback", 403⟩,
             st)) := by
  refine ⟨?_, ?_, ?_, ?_⟩
  · intro tokIn
    cases tokIn with
    | none => exact ⟨rfl, rfl⟩
    | some tin =>
        simp only [scanStall]
        split
        · exact ⟨rfl, rfl⟩
        · split
          · exact ⟨rfl, rfl⟩
          · split
            · exact ⟨rfl, rfl⟩
            · rename_i student' heq
              rw [hfind] at heq
              cases Option.some.inj heq
              simp [hout, isOkStall]
  · intro sid r c
    simp only [submitFeedback]
    split
    · exact ⟨rfl, rfl⟩
    · split
      · exact ⟨rfl, rfl⟩
      · split
        · exact ⟨rfl, rfl⟩
        · rename_i student' heq
          rw [hfind] at heq
          cases Option.some.inj heq
          simp [hout, isOkFeedback]
  · intro tokIn stall a hv hs
    simp only [scanStall]
    rw [hv, hs, hfind]
    simp [hout]
  · intro sid r c hsid h1 h5
    have hf1 : falsyNat (some sid) = false := by
      simp [falsyNat, hsid]
    have hf2 : falsyInt (some r) = false := by
      simp only [falsyInt, Option.getD_some, beq_eq_false_iff_ne, ne_eq]
      omega
    have hd1 : decide (r < 1) = false := decide_eq_false (by omega)
    have hd5 : decide (r > 5) = false := decide_eq_false (by omega)
    simp only [submitFeedback, hf1, hf2, Option.getD_some, hd1, hd5,
      Bool.or_self, Bool.false_eq_true, if_false]
    rw [hfind]
    simp [hout]

/-- Witness for C9 (amended): the concrete outside student scanning a
present, validly signed stall receives exactly the 403 check-in error. -/
theorem stall_ops_require_inside_witness :
    studentFindById 1 [exStudentOut] = some exStudentOut
    ∧ exStudentOut.is_inside_event = false
    ∧ scanStall 0 ⟨[exStudentOut], [exStall], []⟩ 1
          (some (.tok (generateStallQRToken 0 42)))
        = (.err ⟨"You must be checked in at the event to scan stalls", 403⟩,
           ⟨[exStudentOut], [exStall], []⟩) :=
  ⟨rfl, rfl,
   (stall_ops_require_inside 0 ⟨[exStudentOut], [exStall], []⟩ 1 exStudentOut
      (by decide) rfl).2.2.1 (.tok (generateStallQRToken 0 42)) exStall 42
      (by decide) (by decide)⟩

end SGTU
